import Mathlib

/-!
Shallow embedding of uvicorn's access-log field resolution and request-timing
subsystem: the `RequestResponseTiming` class of `uvicorn/protocols/utils.py`
and the `AccessLogFields` class of `uvicorn/logging.py`, together with proofs
about the embedded code.

Modelling conventions: Python floats holding monotonic clock readings are
modelled as rationals, byte strings as ASCII character strings wrapped in a
`Bytes` structure, Python dicts as insertion-ordered association lists, and
code that can raise as `Except`-valued functions whose error type records the
Python exception class.  The monotonic clock is passed explicitly into the
timing mark operations.
-/

/-- Python exceptions the modelled code can raise. -/
inductive PyError where
  | valueError (msg : String)
  | notImplementedError (msg : String)
  | indexError
  | attributeError (msg : String)
  deriving DecidableEq

/-- The double-quote character, code point 34. -/
def quoteChar : Char := Char.ofNat 34

/-- The backslash character, code point 92. -/
def backslashChar : Char := Char.ofNat 92

/-- Decimal digits of a natural number, most significant first.  The fuel
argument only bounds the recursion depth; it always exceeds the number of
digits at every call site. -/
def natDigits : Nat → Nat → List Char
  | 0, _ => []
  | fuel + 1, n =>
    if n < 10 then [Nat.digitChar n]
    else natDigits fuel (n / 10) ++ [Nat.digitChar (n % 10)]

/-- Python str() of a natural number. -/
def pyNatStr (n : Nat) : String := ⟨natDigits (n + 1) n⟩

/-- Python str() of an integer. -/
def pyIntStr (n : Int) : String :=
  if n < 0 then "-" ++ pyNatStr n.natAbs else pyNatStr n.toNat

/-- Python int() applied to a real number: truncation toward zero. -/
def pyTrunc (q : ℚ) : Int := if 0 ≤ q then ⌊q⌋ else -⌊-q⌋

/-- Python round() applied to a real number: nearest integer, ties to even. -/
def pyRound (q : ℚ) : Int :=
  if q - ⌊q⌋ < 1/2 then ⌊q⌋
  else if (1:ℚ)/2 < q - ⌊q⌋ then ⌊q⌋ + 1
  else if ⌊q⌋ % 2 = 0 then ⌊q⌋ else ⌊q⌋ + 1

/-- Python str.lower, modelled per character. -/
def pyLower (s : String) : String := ⟨s.data.map Char.toLower⟩

/-- Python str.startswith. -/
def pyStartsWith (s pre : String) : Bool := decide (pre.data <+: s.data)

/-- Python str.endswith. -/
def pyEndsWith (s suf : String) : Bool := decide (suf.data <:+ s.data)

/-- Python slice s[1:-2]: drop the first character and the last two. -/
def pySlice1Neg2 (s : String) : String := (s.drop 1).dropRight 2

/-- An ASCII byte string (Python bytes value). -/
structure Bytes where
  data : String
  deriving DecidableEq

/-- Python bytes.decode("ascii") / bytes.decode("utf-8") on ASCII content. -/
def Bytes.decode (b : Bytes) : String := b.data

/-- Python len() of a byte string. -/
def Bytes.len (b : Bytes) : Nat := b.data.length

/-- One insertion into a Python dict: overwrite the value in place when the
key exists (keeping its original position), otherwise append at the end. -/
def dictInsert (d : List (String × String)) (k v : String) : List (String × String) :=
  if d.any (fun p => p.1 == k) then d.map (fun p => if p.1 == k then (p.1, v) else p)
  else d ++ [(k, v)]

/-- A Python dict built by a dict comprehension over key-value pairs:
insertion-ordered; for a duplicate key the last value wins. -/
def dictOfPairs (ps : List (String × String)) : List (String × String) :=
  ps.foldl (fun d p => dictInsert d p.1 p.2) []

/-- Python dict.get: the stored value, if the key is present. -/
def dictGet (d : List (String × String)) (k : String) : Option String :=
  (d.find? (fun p => p.1 == k)).map Prod.snd

/-- State of uvicorn.protocols.utils.RequestResponseTiming: four optional
monotonic timestamps. -/
structure RequestResponseTiming where
  _request_start_time : Option ℚ
  _request_end_time : Option ℚ
  _response_start_time : Option ℚ
  _response_end_time : Option ℚ
  deriving DecidableEq

/-- RequestResponseTiming.__init__: all four timestamps start unset. -/
def RequestResponseTiming.init : RequestResponseTiming := ⟨none, none, none, none⟩

/-- request_started(): store the current monotonic clock reading. -/
def RequestResponseTiming.request_started (t : RequestResponseTiming) (now : ℚ) :
    RequestResponseTiming :=
  { t with _request_start_time := some now }

/-- request_ended(): store the current monotonic clock reading. -/
def RequestResponseTiming.request_ended (t : RequestResponseTiming) (now : ℚ) :
    RequestResponseTiming :=
  { t with _request_end_time := some now }

/-- response_started(): store the current monotonic clock reading. -/
def RequestResponseTiming.response_started (t : RequestResponseTiming) (now : ℚ) :
    RequestResponseTiming :=
  { t with _response_start_time := some now }

/-- response_ended(): store the current monotonic clock reading. -/
def RequestResponseTiming.response_ended (t : RequestResponseTiming) (now : ℚ) :
    RequestResponseTiming :=
  { t with _response_end_time := some now }

/-- request_start_time property: raises ValueError when not yet marked. -/
def RequestResponseTiming.request_start_time (t : RequestResponseTiming) : Except PyError ℚ :=
  match t._request_start_time with
  | none => Except.error (PyError.valueError "request_started() was not called")
  | some v => Except.ok v

/-- request_end_time property: raises ValueError when not yet marked. -/
def RequestResponseTiming.request_end_time (t : RequestResponseTiming) : Except PyError ℚ :=
  match t._request_end_time with
  | none => Except.error (PyError.valueError "request_ended() was not called")
  | some v => Except.ok v

/-- response_start_time property: raises ValueError when not yet marked. -/
def RequestResponseTiming.response_start_time (t : RequestResponseTiming) : Except PyError ℚ :=
  match t._response_start_time with
  | none => Except.error (PyError.valueError "response_started() was not called")
  | some v => Except.ok v

/-- response_end_time property: raises ValueError when not yet marked. -/
def RequestResponseTiming.response_end_time (t : RequestResponseTiming) : Except PyError ℚ :=
  match t._response_end_time with
  | none => Except.error (PyError.valueError "response_ended() was not called")
  | some v => Except.ok v

/-- request_duration_seconds(): request_end_time - request_start_time, the
left operand of the subtraction evaluated first as in Python. -/
def RequestResponseTiming.request_duration_seconds (t : RequestResponseTiming) :
    Except PyError ℚ :=
  match t.request_end_time with
  | Except.error e => Except.error e
  | Except.ok b =>
    match t.request_start_time with
    | Except.error e => Except.error e
    | Except.ok a => Except.ok (b - a)

/-- response_duration_seconds(): response_end_time - response_start_time. -/
def RequestResponseTiming.response_duration_seconds (t : RequestResponseTiming) :
    Except PyError ℚ :=
  match t.response_end_time with
  | Except.error e => Except.error e
  | Except.ok b =>
    match t.response_start_time with
    | Except.error e => Except.error e
    | Except.ok a => Except.ok (b - a)

/-- total_duration_seconds(): response_end_time - request_start_time. -/
def RequestResponseTiming.total_duration_seconds (t : RequestResponseTiming) :
    Except PyError ℚ :=
  match t.response_end_time with
  | Except.error e => Except.error e
  | Except.ok b =>
    match t.request_start_time with
    | Except.error e => Except.error e
    | Except.ok a => Except.ok (b - a)

/-- The part of an ASGI HTTP scope that AccessLogFields reads: immutable
request metadata. -/
structure HTTPScope where
  method : String
  raw_path : Bytes
  query_string : Bytes
  http_version : String
  headers : List (Bytes × Bytes)
  client : Option (String × Int)

/-- ASGI send events as seen by AccessLogFields.on_asgi_message.  Optional
fields mirror message.get together with its defaults. -/
inductive ASGISendEvent where
  | http_response_start (status : Int) (headers : Option (List (Bytes × Bytes)))
  | http_response_body (body : Option Bytes)
  | otherEvent

/-- Ambient process state read by some handlers: the formatted wall-clock
time that time.strftime would return, and the process id from getpid. -/
structure Env where
  strftime_now : String
  pid : Int

/-- Per-exchange state of uvicorn.logging.AccessLogFields.  The lazily built
_request_headers cache is omitted: it is observationally identical to
recomputing the dict from the scope headers. -/
structure AccessLogFields where
  scope : HTTPScope
  timing : RequestResponseTiming
  status_code : Option Int
  response_headers : List (String × String)
  _response_length : Nat

/-- AccessLogFields.__init__. -/
def AccessLogFields.init (scope : HTTPScope) (timing : RequestResponseTiming) :
    AccessLogFields :=
  { scope := scope, timing := timing, status_code := none,
    response_headers := [], _response_length := 0 }

/-- request_headers property: scope header bytes decoded into a dict. -/
def AccessLogFields.request_headers (f : AccessLogFields) : List (String × String) :=
  dictOfPairs (f.scope.headers.map (fun p => (p.1.decode, p.2.decode)))

/-- duration property. -/
def AccessLogFields.duration (f : AccessLogFields) : Except PyError ℚ :=
  f.timing.total_duration_seconds

/-- on_asgi_message: on http.response.start record the status and the decoded
headers (note: header names are stored exactly as sent, without
lower-casing); on http.response.body add the chunk length to the running
total; ignore every other message type. -/
def AccessLogFields.on_asgi_message (f : AccessLogFields) (m : ASGISendEvent) :
    AccessLogFields :=
  match m with
  | ASGISendEvent.http_response_start status headers =>
      { f with status_code := some status,
               response_headers :=
                 dictOfPairs ((headers.getD []).map (fun p => (p.1.decode, p.2.decode))) }
  | ASGISendEvent.http_response_body body =>
      { f with _response_length := f._response_length + (body.getD ⟨""⟩).len }
  | ASGISendEvent.otherEvent => f

/-- _request_header: lower-cased key looked up in the request header dict. -/
def AccessLogFields._request_header (f : AccessLogFields) (key : String) : Option String :=
  dictGet f.request_headers (pyLower key)

/-- _response_header: lower-cased key looked up in the response header dict. -/
def AccessLogFields._response_header (f : AccessLogFields) (key : String) : Option String :=
  dictGet f.response_headers (pyLower key)

/-- str.replace with a one-character pattern: every double quote becomes
backslash-quote; every other character is kept. -/
def escapeQuotes : List Char → List Char
  | [] => []
  | c :: rest =>
    if c = quoteChar then backslashChar :: quoteChar :: escapeQuotes rest
    else c :: escapeQuotes rest

/-- _log_format_atom: None becomes the missing sentinel, strings get their
double quotes escaped. -/
def AccessLogFields._log_format_atom : Option String → String
  | none => "-"
  | some s => ⟨escapeQuotes s.data⟩

/-- Shape of the registered handler functions stored in HANDLERS. -/
abbrev LogAtomHandler := AccessLogFields → Env → Except PyError (Option String)

/-- Handler for key h: scope.get("client", ())[0]; indexing the empty default
tuple raises IndexError. -/
def AccessLogFields._remote_address (f : AccessLogFields) (_ : Env) :
    Except PyError (Option String) :=
  match f.scope.client with
  | some c => Except.ok (some c.1)
  | none => Except.error PyError.indexError

/-- Handler for key l: the constant dash. -/
def AccessLogFields._dash (_ : AccessLogFields) (_ : Env) : Except PyError (Option String) :=
  Except.ok (some "-")

/-- Handler for key u: the body is pass, so the call returns None. -/
def AccessLogFields._user_name (_ : AccessLogFields) (_ : Env) :
    Except PyError (Option String) :=
  Except.ok none

/-- Handler for key t: the strftime-formatted current wall-clock time. -/
def AccessLogFields.date_of_the_request (_ : AccessLogFields) (env : Env) :
    Except PyError (Option String) :=
  Except.ok (some env.strftime_now)

/-- Handler for key r: method, raw path plus query string, HTTP version. -/
def AccessLogFields.status_line (f : AccessLogFields) (_ : Env) :
    Except PyError (Option String) :=
  Except.ok (some (f.scope.method ++ " " ++
    (f.scope.raw_path.data ++ f.scope.query_string.data) ++
    " HTTP/" ++ f.scope.http_version))

/-- Handler for key m: the request method from the scope. -/
def AccessLogFields.request_method (f : AccessLogFields) (_ : Env) :
    Except PyError (Option String) :=
  Except.ok (some f.scope.method)

/-- Handler for key U: the decoded raw path. -/
def AccessLogFields.url_path (f : AccessLogFields) (_ : Env) :
    Except PyError (Option String) :=
  Except.ok (some f.scope.raw_path.decode)

/-- Handler for key q: the decoded query string. -/
def AccessLogFields.query_string (f : AccessLogFields) (_ : Env) :
    Except PyError (Option String) :=
  Except.ok (some f.scope.query_string.decode)

/-- Handler for key H: HTTP/ followed by the version. -/
def AccessLogFields.protocol (f : AccessLogFields) (_ : Env) :
    Except PyError (Option String) :=
  Except.ok (some ("HTTP/" ++ f.scope.http_version))

/-- Python str() of the optional status code; str(None) is the string None. -/
def pyStrOfOptInt : Option Int → String
  | none => "None"
  | some n => pyIntStr n

/-- Handler for key s: str(status_code) or the dash; only an empty string
(which str never produces here) would fall through to the dash. -/
def AccessLogFields.status (f : AccessLogFields) (_ : Env) :
    Except PyError (Option String) :=
  Except.ok (some (if pyStrOfOptInt f.status_code = "" then "-"
                   else pyStrOfOptInt f.status_code))

/-- Handler for key B: the running response length as a decimal string. -/
def AccessLogFields.response_length (f : AccessLogFields) (_ : Env) :
    Except PyError (Option String) :=
  Except.ok (some (pyNatStr f._response_length))

/-- Handler for key b: str(length or "-"), so the dash exactly when the
running length is the falsy value 0. -/
def AccessLogFields.response_length_or_dash (f : AccessLogFields) (_ : Env) :
    Except PyError (Option String) :=
  Except.ok (some (if f._response_length = 0 then "-" else pyNatStr f._response_length))

/-- Handler for key f: the referer request header, if present. -/
def AccessLogFields.referer (f : AccessLogFields) (_ : Env) :
    Except PyError (Option String) :=
  Except.ok (dictGet f.request_headers "referer")

/-- Handler for key a: the user-agent request header, if present. -/
def AccessLogFields.user_agent (f : AccessLogFields) (_ : Env) :
    Except PyError (Option String) :=
  Except.ok (dictGet f.request_headers "user-agent")

/-- Handler for key T: str(int(duration)), propagating a timing error. -/
def AccessLogFields.request_time_seconds (f : AccessLogFields) (_ : Env) :
    Except PyError (Option String) :=
  (f.duration).map (fun d => some (pyIntStr (pyTrunc d)))

/-- Handler for key D: str(int(duration * 1_000_000)), propagating a timing
error. -/
def AccessLogFields.request_time_microseconds (f : AccessLogFields) (_ : Env) :
    Except PyError (Option String) :=
  (f.duration).map (fun d => some (pyIntStr (pyTrunc (d * 1000000))))

/-- Fixed six-fraction-digit rendering of a nonnegative rational, as Python
string formatting with %.6f renders the value of a float. -/
def format6abs (q : ℚ) : String :=
  let n := (pyRound (q * 1000000)).toNat
  let frac := pyNatStr (n % 1000000)
  pyNatStr (n / 1000000) ++ "." ++
    String.mk (List.replicate (6 - frac.length) (Char.ofNat 48)) ++ frac

/-- Python percent formatting %.6f of a rational. -/
def format6 (q : ℚ) : String :=
  if q < 0 then "-" ++ format6abs (-q) else format6abs q

/-- Handler for key L: the duration rendered with %.6f, propagating a timing
error. -/
def AccessLogFields.request_time_decimal_seconds (f : AccessLogFields) (_ : Env) :
    Except PyError (Option String) :=
  (f.duration).map (fun d => some (format6 d))

/-- Handler for key p: the process id in angle brackets. -/
def AccessLogFields.process_id (_ : AccessLogFields) (env : Env) :
    Except PyError (Option String) :=
  Except.ok (some ("<" ++ pyIntStr env.pid ++ ">"))

/-- The HANDLERS registry, in registration order. -/
def HANDLERS : List (String × LogAtomHandler) :=
  [("h", AccessLogFields._remote_address),
   ("l", AccessLogFields._dash),
   ("u", AccessLogFields._user_name),
   ("t", AccessLogFields.date_of_the_request),
   ("r", AccessLogFields.status_line),
   ("m", AccessLogFields.request_method),
   ("U", AccessLogFields.url_path),
   ("q", AccessLogFields.query_string),
   ("H", AccessLogFields.protocol),
   ("s", AccessLogFields.status),
   ("B", AccessLogFields.response_length),
   ("b", AccessLogFields.response_length_or_dash),
   ("f", AccessLogFields.referer),
   ("a", AccessLogFields.user_agent),
   ("T", AccessLogFields.request_time_seconds),
   ("D", AccessLogFields.request_time_microseconds),
   ("L", AccessLogFields.request_time_decimal_seconds),
   ("p", AccessLogFields.process_id)]

/-- The test key in HANDLERS followed by the access HANDLERS[key]. -/
def lookupHandler (key : String) : Option LogAtomHandler :=
  (HANDLERS.find? (fun p => p.1 == key)).map Prod.snd

/-- The raw directive value of AccessLogFields.__getitem__, before
post-processing: a registered handler result, a dynamic header lookup, a
raise for the WSGI environ form, or None. -/
def AccessLogFields.getitem_retval (f : AccessLogFields) (env : Env) (key : String) :
    Except PyError (Option String) :=
  match lookupHandler key with
  | some h => h f env
  | none =>
    if pyStartsWith key "\x7b" then
      if pyEndsWith key "\x7di" then Except.ok (f._request_header (pySlice1Neg2 key))
      else if pyEndsWith key "\x7do" then Except.ok (f._response_header (pySlice1Neg2 key))
      else if pyEndsWith key "\x7de" then
        Except.error (PyError.notImplementedError "WSGI environ not supported")
      else Except.ok none
    else Except.ok none

/-- AccessLogFields.__getitem__: the raw directive value pushed through
_log_format_atom. -/
def AccessLogFields.getitem (f : AccessLogFields) (env : Env) (key : String) :
    Except PyError String :=
  match f.getitem_retval env key with
  | Except.error e => Except.error e
  | Except.ok retval => Except.ok (AccessLogFields._log_format_atom retval)

/-- decode("utf-8") called on a str (not bytes) raises AttributeError; this
is what __iter__ does to the response header names, which on_asgi_message
already decoded to str. -/
def pyStrDecode (_ : String) : Except PyError String :=
  Except.error (PyError.attributeError "str object has no attribute decode")

/-- AccessLogFields.__iter__ collected into a list, as list(fields) would be:
static registry keys, then request header keys, then response header keys.
A raise while producing a response header key aborts the enumeration. -/
def AccessLogFields.iter (f : AccessLogFields) : Except PyError (List String) :=
  match f.response_headers.mapM
      (fun p => (pyStrDecode p.1).map (fun ks => pyLower ks ++ "o")) with
  | Except.error e => Except.error e
  | Except.ok respKeys =>
      Except.ok (HANDLERS.map Prod.fst ++
        f.scope.headers.map (fun p => pyLower p.1.decode ++ "i") ++ respKeys)

/-- AccessLogFields.__len__. -/
def AccessLogFields.len (f : AccessLogFields) : Nat :=
  HANDLERS.length + f.scope.headers.length + f.response_headers.length

/-- A scope with no client address and no request headers. -/
def scopeNoClient : HTTPScope :=
  { method := "GET", raw_path := ⟨"/"⟩, query_string := ⟨""⟩, http_version := "1.1",
    headers := [], client := none }

/-- A scope with one request header and a client address. -/
def scopeOneHeader : HTTPScope :=
  { method := "GET", raw_path := ⟨"/"⟩, query_string := ⟨""⟩, http_version := "1.1",
    headers := [(⟨"host"⟩, ⟨"example.com"⟩)], client := some ("127.0.0.1", 1234) }

/-- A scope carrying a user-agent request header. -/
def scopeUserAgent : HTTPScope :=
  { method := "GET", raw_path := ⟨"/"⟩, query_string := ⟨""⟩, http_version := "1.1",
    headers := [(⟨"user-agent"⟩, ⟨"TestClient/1.0"⟩)], client := some ("127.0.0.1", 1234) }

/-- A fixed ambient environment for the concrete evaluations. -/
def envSample : Env := { strftime_now := "[12/Oct/2026:00:00:00 +0000]", pid := 7 }

/-- A freshly initialised resolver: no response events seen yet, no client. -/
def fieldsFresh : AccessLogFields :=
  AccessLogFields.init scopeNoClient RequestResponseTiming.init

/-- A resolver that has received a response start event with one header. -/
def fieldsAfterStart : AccessLogFields :=
  (AccessLogFields.init scopeOneHeader RequestResponseTiming.init).on_asgi_message
    (ASGISendEvent.http_response_start 200 (some [(⟨"content-type"⟩, ⟨"text/plain"⟩)]))

/-- A resolver whose response start event carried a mixed-case header name. -/
def fieldsMixedCase : AccessLogFields :=
  (AccessLogFields.init scopeUserAgent RequestResponseTiming.init).on_asgi_message
    (ASGISendEvent.http_response_start 200 (some [(⟨"X-Note"⟩, ⟨"say"⟩)]))

/-- Timing with request start 0 and response end 3.5 microseconds. -/
def timingMicro : RequestResponseTiming :=
  (RequestResponseTiming.init.request_started 0).response_ended (7/2000000)

/-- A resolver over timingMicro. -/
def fieldsMicro : AccessLogFields := AccessLogFields.init scopeOneHeader timingMicro

/-- Decimal digit characters are never the double-quote character. -/
theorem digitChar_ne_quote (n : Nat) (h : n < 10) : quoteChar ≠ Nat.digitChar n := by
  interval_cases n <;> decide

/-- The digit expansion of a natural number never contains a double quote. -/
theorem natDigits_no_quote (fuel n : Nat) : quoteChar ∉ natDigits fuel n := by
  induction fuel generalizing n with
  | zero => simp [natDigits]
  | succ k ih =>
    rw [natDigits]
    by_cases h : n < 10
    · rw [if_pos h]
      intro hmem
      exact digitChar_ne_quote n h (List.mem_singleton.mp hmem)
    · rw [if_neg h]
      intro hmem
      rcases List.mem_append.mp hmem with h1 | h2
      · exact ih (n / 10) h1
      · exact digitChar_ne_quote (n % 10) (Nat.mod_lt _ (by omega))
          (List.mem_singleton.mp h2)

/-- Python str() of a natural number never contains a double quote. -/
theorem pyNatStr_no_quote (n : Nat) : quoteChar ∉ (pyNatStr n).data :=
  natDigits_no_quote (n + 1) n

/-- Python str() of an integer never contains a double quote. -/
theorem pyIntStr_no_quote (n : Int) : quoteChar ∉ (pyIntStr n).data := by
  unfold pyIntStr
  split
  · intro hmem
    rcases List.mem_append.mp (by rwa [String.data_append] at hmem) with h1 | h2
    · exact absurd h1 (by decide)
    · exact pyNatStr_no_quote _ h2
  · exact pyNatStr_no_quote _

/-- Quote escaping is the identity on quote-free character lists. -/
theorem escapeQuotes_of_no_quote (l : List Char) (h : quoteChar ∉ l) :
    escapeQuotes l = l := by
  induction l with
  | nil => rfl
  | cons c t ih =>
    rw [escapeQuotes, if_neg (fun hc => by subst hc; exact h (List.mem_cons_self _ _)),
      ih (fun hm => h (List.mem_cons_of_mem _ hm))]

/-- Post-processing a present, quote-free string returns it unchanged. -/
theorem log_format_atom_of_no_quote (s : String) (h : quoteChar ∉ s.data) :
    AccessLogFields._log_format_atom (some s) = s := by
  cases s with
  | mk l => exact congrArg String.mk (escapeQuotes_of_no_quote l h)

/-- Resolution of a registered key runs its handler and post-processes the
result. -/
theorem getitem_handler (f : AccessLogFields) (env : Env) (key : String)
    (h : LogAtomHandler) (hfind : lookupHandler key = some h) :
    f.getitem env key =
      match h f env with
      | Except.error e => Except.error e
      | Except.ok r => Except.ok (AccessLogFields._log_format_atom r) := by
  unfold AccessLogFields.getitem AccessLogFields.getitem_retval
  rw [hfind]

/-- A key that starts with an opening brace is not registered: every
registered key is a single non-brace character. -/
theorem lookupHandler_none_of_brace (key : String)
    (h : pyStartsWith key "\x7b" = true) : lookupHandler key = none := by
  have hhead : key.data.head? = some (Char.ofNat 123) := by
    obtain ⟨t, ht⟩ := of_decide_eq_true h
    rw [← ht]; rfl
  have hfind : HANDLERS.find? (fun p => p.1 == key) = none := by
    apply List.find?_eq_none.mpr
    intro p hp
    simp only [HANDLERS, List.mem_cons, List.not_mem_nil, or_false] at hp
    rcases hp with rfl | rfl | rfl | rfl | rfl | rfl | rfl | rfl | rfl | rfl | rfl |
      rfl | rfl | rfl | rfl | rfl | rfl | rfl <;>
      · simp only [beq_iff_eq]
        intro hkey
        rw [← hkey] at hhead
        exact absurd hhead (by decide)
  unfold lookupHandler
  rw [hfind]
  rfl

/-- A key ending in the bracketed e suffix does not end in the i suffix. -/
theorem not_ends_i_of_ends_e (key : String) (h : pyEndsWith key "\x7de" = true) :
    pyEndsWith key "\x7di" = false := by
  apply decide_eq_false
  intro hsuff
  obtain ⟨u, hu⟩ := hsuff
  obtain ⟨t, ht⟩ := of_decide_eq_true h
  have he : "\x7de".data = [Char.ofNat 125, Char.ofNat 101] := rfl
  have hi : "\x7di".data = [Char.ofNat 125, Char.ofNat 105] := rfl
  rw [he] at ht
  rw [hi] at hu
  have := congrArg List.reverse (ht.trans hu.symm)
  simp [List.reverse_append] at this

/-- A key ending in the bracketed e suffix does not end in the o suffix. -/
theorem not_ends_o_of_ends_e (key : String) (h : pyEndsWith key "\x7de" = true) :
    pyEndsWith key "\x7do" = false := by
  apply decide_eq_false
  intro hsuff
  obtain ⟨u, hu⟩ := hsuff
  obtain ⟨t, ht⟩ := of_decide_eq_true h
  have he : "\x7de".data = [Char.ofNat 125, Char.ofNat 101] := rfl
  have ho : "\x7do".data = [Char.ofNat 125, Char.ofNat 111] := rfl
  rw [he] at ht
  rw [ho] at hu
  have := congrArg List.reverse (ht.trans hu.symm)
  simp [List.reverse_append] at this

/-- Folding body events onto a resolver adds the chunk lengths to the
running response length. -/
theorem foldl_body_length (chunks : List (Option Bytes)) (g : AccessLogFields) :
    (chunks.foldl (fun g c => g.on_asgi_message (ASGISendEvent.http_response_body c))
        g)._response_length =
      g._response_length + (chunks.map (fun c => (c.getD ⟨""⟩).len)).sum := by
  induction chunks generalizing g with
  | nil => simp
  | cons c t ih =>
    rw [List.foldl_cons, ih, List.map_cons, List.sum_cons]
    show g._response_length + (c.getD ⟨""⟩).len + _ = _
    omega

/-- C2: for each of the four timing checkpoints, the accessor raises the
not-yet-recorded ValueError exactly when the corresponding timestamp field
is unset, returns the stored timestamp when it is set, and returns the value
just stored by the corresponding mark call. -/
theorem timing_accessors_iff_marked (t : RequestResponseTiming) (now : ℚ) :
    (t._request_start_time = none → t.request_start_time =
      Except.error (PyError.valueError "request_started() was not called")) ∧
    (∀ v, t._request_start_time = some v → t.request_start_time = Except.ok v) ∧
    (t.request_started now).request_start_time = Except.ok now ∧
    (t._request_end_time = none → t.request_end_time =
      Except.error (PyError.valueError "request_ended() was not called")) ∧
    (∀ v, t._request_end_time = some v → t.request_end_time = Except.ok v) ∧
    (t.request_ended now).request_end_time = Except.ok now ∧
    (t._response_start_time = none → t.response_start_time =
      Except.error (PyError.valueError "response_started() was not called")) ∧
    (∀ v, t._response_start_time = some v → t.response_start_time = Except.ok v) ∧
    (t.response_started now).response_start_time = Except.ok now ∧
    (t._response_end_time = none → t.response_end_time =
      Except.error (PyError.valueError "response_ended() was not called")) ∧
    (∀ v, t._response_end_time = some v → t.response_end_time = Except.ok v) ∧
    (t.response_ended now).response_end_time = Except.ok now := by
  refine ⟨fun h => ?_, fun v h => ?_, rfl, fun h => ?_, fun v h => ?_, rfl,
    fun h => ?_, fun v h => ?_, rfl, fun h => ?_, fun v h => ?_, rfl⟩ <;>
    simp [RequestResponseTiming.request_start_time, RequestResponseTiming.request_end_time,
      RequestResponseTiming.response_start_time, RequestResponseTiming.response_end_time, h]

/-- Witness for timing_accessors_iff_marked: at the initial state the request
start accessor fails, and after one mark it returns the marked value. -/
theorem timing_accessors_iff_marked_witness :
    RequestResponseTiming.init.request_start_time =
      Except.error (PyError.valueError "request_started() was not called") ∧
    (RequestResponseTiming.init.request_started 3).request_start_time = Except.ok 3 :=
  ⟨(timing_accessors_iff_marked RequestResponseTiming.init 3).1 rfl,
   (timing_accessors_iff_marked RequestResponseTiming.init 3).2.2.1⟩

/-- C3: total_duration_seconds is the recorded response end minus the
recorded request start when both are set; when response end is unset it
fails with exactly the error of the response_end_time accessor, and when
only request start is unset with exactly the error of the
request_start_time accessor. -/
theorem total_duration_correct (t : RequestResponseTiming) :
    (∀ e s, t._response_end_time = some e → t._request_start_time = some s →
      t.total_duration_seconds = Except.ok (e - s)) ∧
    (t._response_end_time = none →
      t.total_duration_seconds =
        Except.error (PyError.valueError "response_ended() was not called") ∧
      t.response_end_time =
        Except.error (PyError.valueError "response_ended() was not called")) ∧
    (∀ e, t._response_end_time = some e → t._request_start_time = none →
      t.total_duration_seconds =
        Except.error (PyError.valueError "request_started() was not called") ∧
      t.request_start_time =
        Except.error (PyError.valueError "request_started() was not called")) := by
  refine ⟨fun e s he hs => ?_, fun h => ⟨?_, ?_⟩, fun e he hs => ⟨?_, ?_⟩⟩ <;>
    simp [RequestResponseTiming.total_duration_seconds,
      RequestResponseTiming.response_end_time, RequestResponseTiming.request_start_time, *]

/-- Witness for total_duration_correct: with request start 1 and response
end 4 the total duration is their difference. -/
theorem total_duration_correct_witness :
    ((RequestResponseTiming.init.request_started 1).response_ended 4).total_duration_seconds =
      Except.ok ((4:ℚ) - 1) :=
  (total_duration_correct _).1 4 1 rfl rfl

/-- C10: each timing mark writes only its own timestamp field and leaves the
other three unchanged. -/
theorem timing_marks_frame (t : RequestResponseTiming) (now : ℚ) :
    ((t.request_started now)._request_start_time = some now ∧
     (t.request_started now)._request_end_time = t._request_end_time ∧
     (t.request_started now)._response_start_time = t._response_start_time ∧
     (t.request_started now)._response_end_time = t._response_end_time) ∧
    ((t.request_ended now)._request_end_time = some now ∧
     (t.request_ended now)._request_start_time = t._request_start_time ∧
     (t.request_ended now)._response_start_time = t._response_start_time ∧
     (t.request_ended now)._response_end_time = t._response_end_time) ∧
    ((t.response_started now)._response_start_time = some now ∧
     (t.response_started now)._request_start_time = t._request_start_time ∧
     (t.response_started now)._request_end_time = t._request_end_time ∧
     (t.response_started now)._response_end_time = t._response_end_time) ∧
    ((t.response_ended now)._response_end_time = some now ∧
     (t.response_ended now)._request_start_time = t._request_start_time ∧
     (t.response_ended now)._request_end_time = t._request_end_time ∧
     (t.response_ended now)._response_start_time = t._response_start_time) :=
  ⟨⟨rfl, rfl, rfl, rfl⟩, ⟨rfl, rfl, rfl, rfl⟩, ⟨rfl, rfl, rfl, rfl⟩, ⟨rfl, rfl, rfl, rfl⟩⟩

/-- C1 (code bug): on a fresh resolver the s directive resolves to the
string None rather than the missing sentinel, because str(None) is truthy;
and the h directive raises IndexError when the scope has no client address,
because it indexes the empty default tuple. -/
theorem status_and_remote_address_before_ready :
    fieldsFresh.getitem envSample "s" = Except.ok "None" ∧
    fieldsFresh.getitem envSample "h" = Except.error PyError.indexError :=
  ⟨rfl, rfl⟩

/-- C4 (code bug): with one recorded response header, enumerating the
resolver raises AttributeError (decode called on an already-decoded str key)
instead of yielding a response-header key; the reported size still equals
static keys plus request headers plus recorded response headers, and before
any response header arrives the enumeration does yield the static keys in
registry order followed by the request-header keys in arrival order. -/
theorem iter_raises_with_response_headers :
    fieldsAfterStart.iter =
      Except.error (PyError.attributeError "str object has no attribute decode") ∧
    fieldsAfterStart.len = 18 + 1 + 1 ∧
    (AccessLogFields.init scopeOneHeader RequestResponseTiming.init).iter =
      Except.ok ["h", "l", "u", "t", "r", "m", "U", "q", "H", "s", "B", "b",
                 "f", "a", "T", "D", "L", "p", "hosti"] :=
  ⟨rfl, rfl, rfl⟩

/-- C5 (code bug): response header names are stored exactly as sent, without
lower-casing, so the case-lowered lookup misses a mixed-case recorded name
under every case variant of the query and returns the sentinel instead of
the recorded value; request-header lookup does resolve case-insensitively
(the ASGI scope stores names lower-cased), and an absent bracketed name
yields the sentinel. -/
theorem response_header_case_lookup_misses :
    fieldsMixedCase.getitem envSample "\x7bx-note\x7do" = Except.ok "-" ∧
    fieldsMixedCase.getitem envSample "\x7bX-Note\x7do" = Except.ok "-" ∧
    fieldsMixedCase.getitem envSample "\x7bUser-Agent\x7di" = Except.ok "TestClient/1.0" ∧
    fieldsMixedCase.getitem envSample "\x7bmissing-header\x7di" = Except.ok "-" :=
  ⟨rfl, rfl, rfl, rfl⟩

/-- C7: the response body length starts at 0 and accumulates the byte length
of every body chunk; B renders the running total in decimal, and b renders
it in decimal when nonzero and as the dash when it is zero. -/
theorem response_length_accumulates (scope : HTTPScope) (timing : RequestResponseTiming)
    (env : Env) (chunks : List (Option Bytes)) :
    (AccessLogFields.init scope timing)._response_length = 0 ∧
    (chunks.foldl (fun g c => g.on_asgi_message (ASGISendEvent.http_response_body c))
        (AccessLogFields.init scope timing))._response_length =
      (chunks.map (fun c => (c.getD ⟨""⟩).len)).sum ∧
    (∀ f : AccessLogFields, f.getitem env "B" = Except.ok (pyNatStr f._response_length)) ∧
    (∀ f : AccessLogFields, f._response_length = 0 →
      f.getitem env "b" = Except.ok "-") ∧
    (∀ f : AccessLogFields, f._response_length ≠ 0 →
      f.getitem env "b" = Except.ok (pyNatStr f._response_length)) := by
  refine ⟨rfl, ?_, fun f => ?_, fun f h => ?_, fun f h => ?_⟩
  · rw [foldl_body_length]
    exact Nat.zero_add _
  · rw [getitem_handler f env "B" AccessLogFields.response_length rfl]
    show Except.ok (AccessLogFields._log_format_atom (some (pyNatStr f._response_length))) = _
    rw [log_format_atom_of_no_quote _ (pyNatStr_no_quote _)]
  · rw [getitem_handler f env "b" AccessLogFields.response_length_or_dash rfl]
    show Except.ok (AccessLogFields._log_format_atom
      (some (if f._response_length = 0 then "-" else pyNatStr f._response_length))) = _
    rw [if_pos h]
    rfl
  · rw [getitem_handler f env "b" AccessLogFields.response_length_or_dash rfl]
    show Except.ok (AccessLogFields._log_format_atom
      (some (if f._response_length = 0 then "-" else pyNatStr f._response_length))) = _
    rw [if_neg h, log_format_atom_of_no_quote _ (pyNatStr_no_quote _)]

/-- Witness for response_length_accumulates: a fresh resolver renders b as
the dash, and after a three-byte chunk it renders b as the decimal 3. -/
theorem response_length_accumulates_witness :
    fieldsFresh.getitem envSample "b" = Except.ok "-" ∧
    (fieldsFresh.on_asgi_message
        (ASGISendEvent.http_response_body (some ⟨"abc"⟩))).getitem envSample "b" =
      Except.ok (pyNatStr 3) :=
  ⟨(response_length_accumulates scopeNoClient RequestResponseTiming.init envSample
      []).2.2.2.1 fieldsFresh rfl,
   (response_length_accumulates scopeNoClient RequestResponseTiming.init envSample
      []).2.2.2.2 (fieldsFresh.on_asgi_message
        (ASGISendEvent.http_response_body (some ⟨"abc"⟩))) (by decide)⟩

/-- C8: post-processing maps an absent value to the dash sentinel and, on a
present string, prefixes every double quote with a backslash while leaving
every other character unchanged. -/
theorem log_format_atom_escapes :
    AccessLogFields._log_format_atom none = "-" ∧
    ∀ s : String, (AccessLogFields._log_format_atom (some s)).data =
      s.data.foldr (fun c acc =>
        (if c = quoteChar then [backslashChar, quoteChar] else [c]) ++ acc) [] := by
  refine ⟨rfl, fun s => ?_⟩
  show escapeQuotes s.data = _
  induction s.data with
  | nil => rfl
  | cons c t ih =>
    by_cases hc : c = quoteChar
    · simp [escapeQuotes, hc, ih]
    · simp [escapeQuotes, hc, ih]

/-- C9: any bracketed key ending in the WSGI environ suffix raises
NotImplementedError in every resolver state, and any key that is neither a
registered directive nor one of the three bracketed suffix forms resolves to
the dash sentinel without raising. -/
theorem getitem_environ_and_default (f : AccessLogFields) (env : Env) (key : String) :
    (pyStartsWith key "\x7b" = true → pyEndsWith key "\x7de" = true →
      f.getitem env key =
        Except.error (PyError.notImplementedError "WSGI environ not supported")) ∧
    (lookupHandler key = none →
      ¬(pyStartsWith key "\x7b" = true ∧ pyEndsWith key "\x7di" = true) →
      ¬(pyStartsWith key "\x7b" = true ∧ pyEndsWith key "\x7do" = true) →
      ¬(pyStartsWith key "\x7b" = true ∧ pyEndsWith key "\x7de" = true) →
      f.getitem env key = Except.ok "-") := by
  constructor
  · intro hs he
    have hnone := lookupHandler_none_of_brace key hs
    have hi := not_ends_i_of_ends_e key he
    have ho := not_ends_o_of_ends_e key he
    simp [AccessLogFields.getitem, AccessLogFields.getitem_retval, hnone, hs, hi, ho, he]
  · intro hnone h1 h2 h3
    rcases Bool.eq_false_or_eq_true (pyStartsWith key "\x7b") with hb | hb
    · have hi : pyEndsWith key "\x7di" = false := by
        rcases Bool.eq_false_or_eq_true (pyEndsWith key "\x7di") with h | h
        · exact absurd ⟨hb, h⟩ h1
        · exact h
      have ho : pyEndsWith key "\x7do" = false := by
        rcases Bool.eq_false_or_eq_true (pyEndsWith key "\x7do") with h | h
        · exact absurd ⟨hb, h⟩ h2
        · exact h
      have he : pyEndsWith key "\x7de" = false := by
        rcases Bool.eq_false_or_eq_true (pyEndsWith key "\x7de") with h | h
        · exact absurd ⟨hb, h⟩ h3
        · exact h
      simp [AccessLogFields.getitem, AccessLogFields.getitem_retval, hnone, hb, hi, ho, he]
      rfl
    · simp [AccessLogFields.getitem, AccessLogFields.getitem_retval, hnone, hb]
      rfl

/-- Witness for getitem_environ_and_default: the bracketed trace environ key
raises, and the unregistered key Z resolves to the dash. -/
theorem getitem_environ_and_default_witness :
    fieldsFresh.getitem envSample "\x7btrace\x7de" =
      Except.error (PyError.notImplementedError "WSGI environ not supported") ∧
    fieldsFresh.getitem envSample "Z" = Except.ok "-" :=
  ⟨(getitem_environ_and_default fieldsFresh envSample "\x7btrace\x7de").1 rfl rfl,
   (getitem_environ_and_default fieldsFresh envSample "Z").2 rfl
     (by decide) (by decide) (by decide)⟩

/-- C6 counterexample: with a recorded total duration of 3.5 microseconds
the code renders the D directive as 3 (truncation), while rounding to the
nearest integer as the claim states would give 4. -/
theorem request_time_microseconds_not_rounded :
    fieldsMicro.timing.total_duration_seconds = Except.ok ((7:ℚ)/2000000 - 0) ∧
    fieldsMicro.getitem envSample "D" = Except.ok "3" ∧
    pyIntStr (pyRound (((7:ℚ)/2000000 - 0) * 1000000)) = "4" ∧
    fieldsMicro.getitem envSample "D" ≠
      Except.ok (pyIntStr (pyRound (((7:ℚ)/2000000 - 0) * 1000000))) := by
  have harith : ((7:ℚ)/2000000 - 0) * 1000000 = 7/2 := by norm_num
  have hfl : ⌊(7:ℚ)/2⌋ = 3 := by norm_num
  have htr : pyTrunc ((7:ℚ)/2) = 3 := by
    unfold pyTrunc
    rw [if_pos (by norm_num), hfl]
  have hround : pyRound ((7:ℚ)/2) = 4 := by
    unfold pyRound
    rw [hfl]
    rw [if_neg (by norm_num), if_neg (by norm_num), if_neg (by decide)]
    decide
  have hcode : fieldsMicro.getitem envSample "D" = Except.ok "3" := by
    rw [getitem_handler fieldsMicro envSample "D"
      AccessLogFields.request_time_microseconds rfl]
    show Except.ok (AccessLogFields._log_format_atom
      (some (pyIntStr (pyTrunc (((7:ℚ)/2000000 - 0) * 1000000))))) = _
    rw [harith, htr]
    rfl
  have hclaim : pyIntStr (pyRound (((7:ℚ)/2000000 - 0) * 1000000)) = "4" := by
    rw [harith, hround]
    rfl
  refine ⟨rfl, hcode, hclaim, ?_⟩
  rw [hcode, hclaim]
  intro hcontra
  exact absurd (Except.ok.inj hcontra) (by decide)

/-- C6 amended: whenever the total duration is computable, the D directive
is the decimal string of the duration in microseconds truncated toward zero
(Python int), not rounded to the nearest integer. -/
theorem request_time_microseconds_truncates (f : AccessLogFields) (env : Env) (d : ℚ)
    (h : f.timing.total_duration_seconds = Except.ok d) :
    f.getitem env "D" = Except.ok (pyIntStr (pyTrunc (d * 1000000))) := by
  rw [getitem_handler f env "D" AccessLogFields.request_time_microseconds rfl]
  unfold AccessLogFields.request_time_microseconds AccessLogFields.duration
  rw [h]
  show Except.ok (AccessLogFields._log_format_atom
    (some (pyIntStr (pyTrunc (d * 1000000))))) = _
  rw [log_format_atom_of_no_quote _ (pyIntStr_no_quote _)]

/-- Witness for request_time_microseconds_truncates at the concrete timing
with total duration 3.5 microseconds. -/
theorem request_time_microseconds_truncates_witness :
    fieldsMicro.getitem envSample "D" =
      Except.ok (pyIntStr (pyTrunc (((7:ℚ)/2000000 - 0) * 1000000))) :=
  request_time_microseconds_truncates fieldsMicro envSample ((7:ℚ)/2000000 - 0) rfl
